import Mathlib

/-! xpclass: profile progression, badge partition and avatar gating.

Shallow embedding of the client logic of `src/components/profile/Profile.jsx`
and `src/components/study/AddUnitModal.jsx`.

Modelling conventions.

* Numbers that the schema declares as integers (`xp`, `xp_required`, `unlock_xp`,
  `level_number`, scores) are `Int`.  A column that may be `null` or `undefined`
  is an `Option`.
* The component state (the `useState` cells) is the record `State`; a handler is a
  function from the state it closes over, the ambient `user` and `profile`, and the
  responses of the store calls it awaits, to an `Outcome`: the state after its
  setters ran, the store calls it issued, and what it wrote to `console.error`.
* The store (supabase) is external.  A store call is recorded as data (`StoreCall`)
  and its awaited result `{ data, error }` is an input (`Response`).
-/

namespace Xpclass

/-! ## Data model -/

/-- Error object carried by a store response. -/
structure StoreError where
  message : Option String
deriving DecidableEq, Repr

/-- Awaited result `{ data, error }` of a store call. -/
structure Response (α : Type) where
  data : Option α
  error : Option StoreError
deriving Repr

/-- Row of `student_levels`. -/
structure Level where
  id : String
  level_number : Int
  xp_required : Int
  badge_name : String
  badge_icon : String
  badge_tier : String
  is_active : Bool
deriving DecidableEq, Repr

/-- Row of `avatars` (also the shape of the hard-coded fallback avatars). -/
structure Avatar where
  id : String
  name : String
  image_url : String
  unlock_xp : Int
  description : String
  tier : String
deriving DecidableEq, Repr

/-- The `profile` object of `useAuth()`; a missing field is `none`. -/
structure Profile where
  full_name : Option String
  avatar_url : Option String
  xp : Option Int
deriving DecidableEq, Repr

/-- The `user` object of `useAuth()`. -/
structure User where
  id : String
deriving DecidableEq, Repr

/-- Row of `user_progress`. -/
structure ProgressRow where
  status : String
  score : Option Int
deriving DecidableEq, Repr

/-- Row of `users` as read by `fetchUserStats`. -/
structure UserData where
  streak_count : Option Int
  total_practice_time : Option Int
deriving DecidableEq, Repr

/-- The `stats` state cell. -/
structure Stats where
  totalXP : Int
  exercisesCompleted : Int
  streakCount : Int
  totalPracticeTime : Int
  averageScore : Int
  levelsCompleted : Int
  unitsCompleted : Int
  sessionsCompleted : Int
deriving DecidableEq, Repr

/-- The `useState` cells of the `Profile` component. -/
structure State where
  loading : Bool
  isEditing : Bool
  editFullName : String
  stats : Stats
  recentActivity : List ProgressRow
  availableAvatars : List Avatar
  showAvatarSelector : Bool
  selectedAvatar : String
  earnedBadges : List Level
  upcomingBadges : List Level
  showBadgeModal : Bool
deriving DecidableEq, Repr

/-- Initial values of the state cells (`useState(...)` arguments). -/
def State.initial : State :=
  { loading := true
    isEditing := false
    editFullName := ""
    stats :=
      { totalXP := 0, exercisesCompleted := 0, streakCount := 0, totalPracticeTime := 0,
        averageScore := 0, levelsCompleted := 0, unitsCompleted := 0, sessionsCompleted := 0 }
    recentActivity := []
    availableAvatars := []
    showAvatarSelector := false
    selectedAvatar := ""
    earnedBadges := []
    upcomingBadges := []
    showBadgeModal := false }

/-- Store call as built by the query builder: table, equality filters, ordering
(column, ascending) and row limit for a select; table, written fields and
equality filters for an update.  `single` records a trailing `.single()`. -/
inductive StoreCall where
  | select (table : String) (eqs : List (String × String))
      (order : Option (String × Bool)) (limit : Option Nat) (single : Bool)
  | update (table : String) (fields : List (String × String)) (eqs : List (String × String))
deriving DecidableEq, Repr

/-- What a handler did: resulting state, store calls issued (in order), and the
labels it passed to `console.error`. -/
structure Outcome where
  state : State
  calls : List StoreCall
  errors : List String
deriving DecidableEq, Repr

/-! ## JavaScript `||` on nullable integers -/

/-- Truthiness of a nullable integer: `null`, `undefined` and `0` are falsy. -/
def truthy : Option Int → Bool
  | some n => n != 0
  | none => false

/-- The expression `a || b` on nullable integers. -/
def jsOr (a b : Option Int) : Option Int :=
  if truthy a then a else b

/-- The expression `a || d` with an integer literal `d` on the right. -/
def jsOrNum (a : Option Int) (d : Int) : Int :=
  match a with
  | some n => if n != 0 then n else d
  | none => d

/-- The expression `profile?.xp`. -/
def profileXp (profile : Option Profile) : Option Int :=
  profile.bind (fun p => p.xp)

/-! ## processBadges -/

/-- The line `const userXP = stats.totalXP || profile?.xp || 0`. -/
def userXPOf (stats : Stats) (profile : Option Profile) : Int :=
  jsOrNum (jsOr (some stats.totalXP) (profileXp profile)) 0

/-- The query awaited by `processBadges`. -/
def studentLevelsQuery : StoreCall :=
  StoreCall.select "student_levels" [("is_active", "true")] (some ("level_number", true)) none false

/-- The line `levels.filter(level => userXP >= level.xp_required)`. -/
def earnedOf (userXP : Int) (levels : List Level) : List Level :=
  levels.filter (fun level => decide (userXP ≥ level.xp_required))

/-- The line `levels.filter(level => userXP < level.xp_required)`. -/
def upcomingOf (userXP : Int) (levels : List Level) : List Level :=
  levels.filter (fun level => decide (userXP < level.xp_required))

/-- The handler `processBadges`: reads the XP, awaits the level rows, and on
success stores the two filtered lists; a store error is caught and logged, and
the badge cells keep their previous value. -/
def processBadges (s : State) (profile : Option Profile)
    (resp : Response (List Level)) : Outcome :=
  let userXP := userXPOf s.stats profile
  match resp.error with
  | some _ =>
    { state := s, calls := [studentLevelsQuery], errors := ["Error processing badges:"] }
  | none =>
    let levels := resp.data.getD []
    let earned := earnedOf userXP levels
    let upcoming := upcomingOf userXP levels
    { state := { s with earnedBadges := earned, upcomingBadges := upcoming }
      calls := [studentLevelsQuery]
      errors := [] }

/-- A store response that carries rows and no error. -/
def okRows {α : Type} (rows : List α) : Response (List α) :=
  { data := some rows, error := none }

/-- Reading of "ordered ascending by `level_number`". -/
def AscendingByLevel (levels : List Level) : Prop :=
  levels.Pairwise (fun a b => a.level_number ≤ b.level_number)

instance (levels : List Level) : Decidable (AscendingByLevel levels) := by
  unfold AscendingByLevel; infer_instance

/-! ## Avatar gating -/

/-- The render-time flag `const isUnlocked = stats.totalXP >= avatar.unlock_xp`. -/
def isUnlocked (stats : Stats) (avatar : Avatar) : Bool :=
  decide (stats.totalXP ≥ avatar.unlock_xp)

/-- The update issued by `handleAvatarSelect`. -/
def avatarUpdateCall (user : User) (avatar : Avatar) : StoreCall :=
  StoreCall.update "users" [("avatar_url", avatar.image_url)] [("id", user.id)]

/-- The handler `handleAvatarSelect`.  The first line returns early for a locked
avatar.  Inside the `try`, reading `user.id` of an absent user throws before any
request is sent; a thrown or returned error is caught and logged. -/
def handleAvatarSelect (s : State) (user : Option User) (avatar : Avatar)
    (resp : Response Unit) : Outcome :=
  if s.stats.totalXP < avatar.unlock_xp then
    { state := s, calls := [], errors := [] }
  else
    match user with
    | none => { state := s, calls := [], errors := ["Error updating avatar:"] }
    | some u =>
      match resp.error with
      | some _ =>
        { state := s, calls := [avatarUpdateCall u avatar], errors := ["Error updating avatar:"] }
      | none =>
        { state := { s with selectedAvatar := avatar.image_url, showAvatarSelector := false }
          calls := [avatarUpdateCall u avatar]
          errors := [] }

/-- The click handler of an avatar tile: `isUnlocked && handleAvatarSelect(avatar)`. -/
def onAvatarClick (s : State) (user : Option User) (avatar : Avatar)
    (resp : Response Unit) : Outcome :=
  if isUnlocked s.stats avatar then handleAvatarSelect s user avatar resp
  else { state := s, calls := [], errors := [] }

/-! ## fetchUserStats -/

/-- The first query of `fetchUserStats` (the joined `exercises` columns are not
used by the computation and are left out of the row type). -/
def progressQuery (user : User) : StoreCall :=
  StoreCall.select "user_progress" [("user_id", user.id)] none none false

/-- The second query of `fetchUserStats`. -/
def userDataQuery (user : User) : StoreCall :=
  StoreCall.select "users" [("id", user.id)] none none true

/-- The line `progressData?.filter(p => p.status === 'completed') || []`. -/
def completedOf (progressData : Option (List ProgressRow)) : List ProgressRow :=
  match progressData with
  | some rows => rows.filter (fun p => p.status == "completed")
  | none => []

/-- The fold `completed.reduce((sum, p) => sum + (p.score || 0), 0)`. -/
def scoreSum (completed : List ProgressRow) : Int :=
  completed.foldl (fun sum p => sum + jsOrNum p.score 0) 0

/-- The value `Math.round(num / den)` for integers with `den > 0`: the floor of
`num / den + 1/2`, computed exactly (integer division rounds down for a positive
divisor). -/
def mathRoundDiv (num den : Int) : Int :=
  (2 * num + den) / (2 * den)

/-- The conditional that computes `averageScore`. -/
def averageScoreOf (completed : List ProgressRow) : Int :=
  if completed.length > 0 then mathRoundDiv (scoreSum completed) completed.length else 0

/-- The handler `fetchUserStats`.  It returns at once without a user.  Otherwise
it awaits the progress rows and the user row; either error is thrown, logged by
the `catch`, and leaves `stats` untouched.  On success it stores the new stats
and calls `processBadges`, which still closes over the stats of the render that
created this handler (the state `s`), so only the two badge cells are taken from
that call.  The `finally` block clears `loading` on every path past the guard. -/
def fetchUserStats (s : State) (user : Option User) (profile : Option Profile)
    (progressResp : Response (List ProgressRow)) (userResp : Response UserData)
    (levelsResp : Response (List Level)) : Outcome :=
  match user with
  | none => { state := s, calls := [], errors := [] }
  | some u =>
    match progressResp.error with
    | some _ =>
      { state := { s with loading := false }
        calls := [progressQuery u]
        errors := ["Error fetching user stats:"] }
    | none =>
      let completed := completedOf progressResp.data
      let totalXP := jsOrNum (profileXp profile) 0
      let exercisesCompleted : Int := completed.length
      let averageScore := averageScoreOf completed
      match userResp.error with
      | some _ =>
        { state := { s with loading := false }
          calls := [progressQuery u, userDataQuery u]
          errors := ["Error fetching user stats:"] }
      | none =>
        let newStats : Stats :=
          { totalXP := totalXP
            exercisesCompleted := exercisesCompleted
            streakCount := jsOrNum (userResp.data.bind (fun d => d.streak_count)) 0
            totalPracticeTime := jsOrNum (userResp.data.bind (fun d => d.total_practice_time)) 0
            averageScore := averageScore
            levelsCompleted := 0
            unitsCompleted := 0
            sessionsCompleted := 0 }
        let badges := processBadges s profile levelsResp
        { state :=
            { s with
              loading := false
              stats := newStats
              earnedBadges := badges.state.earnedBadges
              upcomingBadges := badges.state.upcomingBadges }
          calls := [progressQuery u, userDataQuery u] ++ badges.calls
          errors := badges.errors }

/-! ## Sample data -/

/-- Level row with the given number and threshold and placeholder display fields. -/
def mkLevel (n xp : Int) : Level :=
  { id := toString n, level_number := n, xp_required := xp, badge_name := "", badge_icon := "",
    badge_tier := "bronze", is_active := true }

/-- The catalog `[{1,0},{2,500},{3,2000}]` of the scenarios. -/
def sampleCatalog : List Level := [mkLevel 1 0, mkLevel 2 500, mkLevel 3 2000]

/-- State with the given `stats.totalXP` and every other cell at its initial value. -/
def stateWithXP (xp : Int) : State :=
  { State.initial with stats := { State.initial.stats with totalXP := xp } }

/-- Avatar with the given unlock threshold. -/
def mkAvatar (xp : Int) : Avatar :=
  { id := "3", name := "Rookie", image_url := "R", unlock_xp := xp, description := "",
    tier := "bronze" }

/-- A store response without data and without error. -/
def okUnit : Response Unit := { data := none, error := none }

/-! ## Badge modal and avatar selector: derived texts -/

/-- The text `badge.xp_required - (stats.totalXP || 0)` shown under an upcoming
badge ("XP needed"). -/
def xpNeededShown (stats : Stats) (badge : Level) : Int :=
  badge.xp_required - jsOrNum (some stats.totalXP) 0

/-- The expression `availableAvatars.find(avatar => avatar.unlock_xp > stats.totalXP)`. -/
def nextAvatarOf (stats : Stats) (avatars : List Avatar) : Option Avatar :=
  avatars.find? (fun avatar => decide (avatar.unlock_xp > stats.totalXP))

/-- What the block under the avatar grid shows: the next avatar with the XP still
needed, or the message that all avatars are unlocked. -/
inductive NextAvatarPanel where
  | next (name : String) (needed : Int)
  | allUnlocked
deriving DecidableEq, Repr

/-- The immediately invoked function that renders the next unlockable avatar. -/
def nextAvatarPanel (s : State) : NextAvatarPanel :=
  match nextAvatarOf s.stats s.availableAvatars with
  | some nextAvatar =>
    NextAvatarPanel.next nextAvatar.name (nextAvatar.unlock_xp - s.stats.totalXP)
  | none => NextAvatarPanel.allUnlocked

/-- Reading of "ordered ascending by `unlock_xp`". -/
def AscendingByUnlock (avatars : List Avatar) : Prop :=
  avatars.Pairwise (fun a b => a.unlock_xp ≤ b.unlock_xp)

instance (avatars : List Avatar) : Decidable (AscendingByUnlock avatars) := by
  unfold AscendingByUnlock; infer_instance

/-- The hard-coded fallback list of `fetchAvailableAvatars`. -/
def fallbackAvatars : List Avatar :=
  [ { id := "1", name := "Default", image_url := "👤", unlock_xp := 0,
      description := "Default avatar", tier := "default" },
    { id := "2", name := "Smiley", image_url := "😊", unlock_xp := 0,
      description := "Happy face", tier := "default" },
    { id := "3", name := "Rookie", image_url := "🌱", unlock_xp := 500,
      description := "Rookie learner", tier := "bronze" },
    { id := "4", name := "Scholar", image_url := "🎓", unlock_xp := 2000,
      description := "Academic scholar", tier := "silver" },
    { id := "5", name := "Expert", image_url := "⚡", unlock_xp := 8000,
      description := "Expert level", tier := "gold" } ]

/-- The function `formatPracticeTime` on a non-negative whole number of minutes.
A template literal renders such a number in decimal, as `toString` does. -/
def formatPracticeTime (minutes : Nat) : String :=
  if minutes < 60 then toString minutes ++ " phút"
  else
    let hours := minutes / 60
    let remainingMinutes := minutes % 60
    if remainingMinutes > 0 then toString hours ++ "h " ++ toString remainingMinutes ++ "m"
    else toString hours ++ " giờ"

/-! ## Progression evaluator (hook `useStudentLevels`) -/

/-- Result of an evaluation, with the fields the profile header reads. -/
structure ProgressionState where
  currentLevel : Option Level
  nextLevel : Option Level
  xpNeeded : Option Int
  progressPercentage : Int
  isMaxLevel : Bool
deriving DecidableEq, Repr

/-- The operation `clamp(x, lo, hi)`. -/
def clamp (x lo hi : Int) : Int :=
  max lo (min x hi)

/-- Modelled from the spec: the evaluator behind the hook `useStudentLevels`
(`hooks/useStudentLevels`), whose source is not part of `src/`.  Following
section 4.1: negative XP is clamped to 0; inactive levels are dropped; the
catalog is sorted by `level_number`; a level is earned iff `xp_required ≤ userXP`;
the current level is the last earned one and the next level the first unearned
one.  Without a next level the percentage is 100.  With one, it is 100 when the
two thresholds coincide and otherwise
`clamp(100 × (userXP − current) / (next − current), 0, 100)`, rounded to an
integer as in the scenario of section 8.  The threshold of the "level 0" sentinel
is the parameter `sentinelXp`, which the spec leaves open. -/
def evaluate (sentinelXp : Int) (userXP : Int) (catalog : List Level) : ProgressionState :=
  let xp := max userXP 0
  let active := catalog.filter (fun level => level.is_active)
  let sorted := active.insertionSort (fun a b => a.level_number ≤ b.level_number)
  let earned := sorted.filter (fun level => decide (level.xp_required ≤ xp))
  let upcoming := sorted.filter (fun level => decide (xp < level.xp_required))
  let current := earned.getLast?
  let currentXp := match current with
    | some level => level.xp_required
    | none => sentinelXp
  match upcoming.head? with
  | none =>
    { currentLevel := current, nextLevel := none, xpNeeded := none,
      progressPercentage := 100, isMaxLevel := true }
  | some next =>
    { currentLevel := current
      nextLevel := some next
      xpNeeded := some (next.xp_required - xp)
      progressPercentage :=
        if next.xp_required = currentXp then 100
        else clamp (Int.fdiv (2 * (100 * (xp - currentXp)) + (next.xp_required - currentXp))
          (2 * (next.xp_required - currentXp))) 0 100
      isMaxLevel := false }

/-! ## AddUnitModal: handleSubmit -/

/-- White space and line terminators of ECMAScript, the characters that
`String.prototype.trim` strips. -/
def isJsWhitespace (c : Char) : Bool :=
  let n := c.toNat
  (0x09 ≤ n && n ≤ 0x0D) || n == 0x20 || n == 0xA0 || n == 0x1680
    || (0x2000 ≤ n && n ≤ 0x200A) || n == 0x2028 || n == 0x2029 || n == 0x202F
    || n == 0x205F || n == 0x3000 || n == 0xFEFF

/-- The method `trim()` on the characters of a string. -/
def jsTrimChars (cs : List Char) : List Char :=
  ((cs.dropWhile isJsWhitespace).reverse.dropWhile isJsWhitespace).reverse

/-- The method `trim()`. -/
def jsTrim (s : String) : String :=
  String.mk (jsTrimChars s.data)

/-- The expression `a || d` on a nullable string with a string literal on the
right: `null`, `undefined` and the empty string are falsy. -/
def jsOrStr (a : Option String) (d : String) : String :=
  match a with
  | some m => if m ≠ "" then m else d
  | none => d

/-- The `formData` state cell.  `estimated_duration` is `none` when `parseInt`
of the input produced `NaN`. -/
structure FormData where
  title : String
  description : String
  color_theme : String
  estimated_duration : Option Int
deriving DecidableEq, Repr

/-- The `useState` cells of `AddUnitModal`. -/
structure ModalState where
  formData : FormData
  loading : Bool
  error : String
deriving DecidableEq, Repr

/-- Initial values of the cells of `AddUnitModal`. -/
def ModalState.initial : ModalState :=
  { formData := { title := "", description := "", color_theme := "blue",
                  estimated_duration := some 60 }
    loading := false
    error := "" }

/-- Row returned by the unit-number query (`select('unit_number')`). -/
structure UnitNumberRow where
  unit_number : Int
deriving DecidableEq, Repr

/-- The object passed to `insert`. -/
structure UnitInsert where
  course_id : String
  title : String
  description : Option String
  unit_number : Int
  color_theme : String
  unlock_requirement : Int
  is_active : Bool
  estimated_duration : Option Int
deriving DecidableEq, Repr

/-- The created row as returned by `.insert(...).select().single()`. -/
structure UnitRow where
  id : String
  fields : UnitInsert
deriving DecidableEq, Repr

/-- Store calls of `handleSubmit`: the unit-number query and the insert. -/
inductive ModalCall where
  | query (call : StoreCall)
  | insertUnit (record : UnitInsert)
deriving DecidableEq, Repr

/-- What `handleSubmit` did: resulting state, store calls issued (in order), the
arguments of its `onCreated` invocations, and the labels passed to
`console.error`. -/
structure SubmitOutcome where
  state : ModalState
  calls : List ModalCall
  created : List (Option UnitRow)
  errors : List String
deriving DecidableEq, Repr

/-- The unit-number query: units of the course, highest `unit_number` first, one row. -/
def unitNumberQuery (levelId : String) : ModalCall :=
  ModalCall.query
    (StoreCall.select "units" [("course_id", levelId)] (some ("unit_number", false)) (some 1) false)

/-- The line
`const nextUnitNumber = existingUnits.length > 0 ? existingUnits[0].unit_number + 1 : 1`. -/
def nextUnitNumberOf (existingUnits : List UnitNumberRow) : Int :=
  match existingUnits with
  | first :: _ => first.unit_number + 1
  | [] => 1

/-- The expression `formData.description.trim() || null`. -/
def descriptionField (description : String) : Option String :=
  if jsTrim description ≠ "" then some (jsTrim description) else none

/-- The object literal passed to `insert`. -/
def unitRecord (form : FormData) (levelId : String) (nextUnitNumber : Int) : UnitInsert :=
  { course_id := levelId
    title := jsTrim form.title
    description := descriptionField form.description
    unit_number := nextUnitNumber
    color_theme := form.color_theme
    unlock_requirement := 0
    is_active := true
    estimated_duration := form.estimated_duration }

/-- The `TypeError` raised by `existingUnits.length` when the store answers with
neither rows nor an error.  Its text depends on the engine; it is not empty, and
a fixed label stands for it. -/
def nullRowsError : StoreError :=
  { message := some "TypeError: existingUnits is null" }

/-- The `catch` and `finally` blocks after a throw of `err`: the error is logged,
`error` becomes `err.message || 'Failed to create unit'`, `loading` is cleared. -/
def submitFailed (s : ModalState) (calls : List ModalCall) (err : StoreError) : SubmitOutcome :=
  { state := { s with loading := false, error := jsOrStr err.message "Failed to create unit" }
    calls := calls
    created := []
    errors := ["Error creating unit:"] }

/-- The handler `handleSubmit`.  It sets `loading` and clears `error`, awaits the
unit-number query and then the insert; an error of either call is thrown to the
`catch` block, and so is the `TypeError` of reading `.length` of missing rows.
After a successful insert it calls `onCreated(data)`; the callback is a prop of
the component and is recorded, not run.  The `finally` block clears `loading`. -/
def handleSubmit (s : ModalState) (levelId : String)
    (countResp : Response (List UnitNumberRow)) (insertResp : Response UnitRow) :
    SubmitOutcome :=
  match countResp.error with
  | some countError => submitFailed s [unitNumberQuery levelId] countError
  | none =>
    match countResp.data with
    | none => submitFailed s [unitNumberQuery levelId] nullRowsError
    | some existingUnits =>
      let nextUnitNumber := nextUnitNumberOf existingUnits
      let record := unitRecord s.formData levelId nextUnitNumber
      match insertResp.error with
      | some error =>
        submitFailed s [unitNumberQuery levelId, ModalCall.insertUnit record] error
      | none =>
        { state := { s with loading := false, error := "" }
          calls := [unitNumberQuery levelId, ModalCall.insertUnit record]
          created := [insertResp.data]
          errors := [] }

/-- The rows answer the unit-number query for a course whose existing unit
numbers are `units`: no row for a course without units, otherwise the one row
with the highest `unit_number`. -/
def IsTopUnitRows (units : List Int) (rows : List UnitNumberRow) : Prop :=
  (units = [] ∧ rows = [])
    ∨ ∃ top, rows = [top] ∧ top.unit_number ∈ units ∧ ∀ u, u ∈ units → u ≤ top.unit_number

/-- State at XP 600 whose avatar list is the fallback list. -/
def sampleAvatarState : State :=
  { stateWithXP 600 with availableAvatars := fallbackAvatars }

/-! ## Decimal rendering -/

/-- Value of a list of decimal digit characters, most significant first. -/
def digitsValue (cs : List Char) : Nat :=
  cs.foldl (fun acc c => 10 * acc + (c.toNat - 48)) 0

/-! ## Tier lookup tables -/

/-- Icon components of `lucide-react` that the tier table refers to. -/
inductive Icon where
  | Shield
  | Award
  | Crown
  | Gem
  | Zap
deriving DecidableEq, Repr

/-- Names of the members that every object literal inherits from
`Object.prototype`. -/
def objectPrototypeKeys : List String :=
  ["constructor", "__defineGetter__", "__defineSetter__", "hasOwnProperty",
   "__lookupGetter__", "__lookupSetter__", "isPrototypeOf", "propertyIsEnumerable",
   "toString", "valueOf", "__proto__", "toLocaleString"]

/-- A value read from an object literal that is not `undefined`: the value of one
of its own entries, or the member of `Object.prototype` of the given name (a
function, or the prototype object itself for `__proto__`; truthy either way). -/
inductive Looked (α : Type) where
  | entry (value : α)
  | inherited (name : String)
deriving DecidableEq, Repr

/-- The property key used by `table[tier]`: a string is its own key, and a
missing tier (`undefined`) reads the key `undefined`. -/
def propertyKey : Option String → String
  | some key => key
  | none => "undefined"

/-- The property read `table[tier]` on an object literal with the given own
entries: an own entry wins, then the prototype chain is consulted, and `none`
is `undefined`. -/
def getProperty {α : Type} (table : List (String × α)) (tier : Option String) :
    Option (Looked α) :=
  match table.lookup (propertyKey tier) with
  | some value => some (Looked.entry value)
  | none =>
    if propertyKey tier ∈ objectPrototypeKeys then some (Looked.inherited (propertyKey tier))
    else none

/-- The table `icons` of `getTierIcon`. -/
def tierIcons : List (String × Icon) :=
  [("bronze", Icon.Shield), ("silver", Icon.Award), ("gold", Icon.Crown),
   ("platinum", Icon.Gem), ("diamond", Icon.Zap)]

/-- The table `colors` of `getTierColor`. -/
def tierColors : List (String × String) :=
  [("bronze", "text-amber-600"), ("silver", "text-gray-500"), ("gold", "text-yellow-500"),
   ("platinum", "text-purple-500"), ("diamond", "text-cyan-400")]

/-- The table `colors` of `getTierBgColor`. -/
def tierBgColors : List (String × String) :=
  [("bronze", "bg-amber-100"), ("silver", "bg-gray-100"), ("gold", "bg-yellow-100"),
   ("platinum", "bg-purple-100"), ("diamond", "bg-cyan-100")]

/-- The expression `table[tier] || fallback` on a table of class names: an empty
string and `undefined` are falsy. -/
def lookupOrString (table : List (String × String)) (tier : Option String)
    (fallback : String) : Looked String :=
  match getProperty table tier with
  | some (Looked.entry value) => if value ≠ "" then Looked.entry value else Looked.entry fallback
  | some (Looked.inherited name) => Looked.inherited name
  | none => Looked.entry fallback

/-- The function `getTierIcon`: `icons[tier] || Shield` (a component is truthy). -/
def getTierIcon (tier : Option String) : Looked Icon :=
  match getProperty tierIcons tier with
  | some found => found
  | none => Looked.entry Icon.Shield

/-- The function `getTierColor`: `colors[tier] || 'text-gray-500'`. -/
def getTierColor (tier : Option String) : Looked String :=
  lookupOrString tierColors tier "text-gray-500"

/-- The function `getTierBgColor`: `colors[tier] || 'bg-gray-100'`. -/
def getTierBgColor (tier : Option String) : Looked String :=
  lookupOrString tierBgColors tier "bg-gray-100"

/-- The five tiers that have an entry in the tables. -/
def tableTiers : List String := ["bronze", "silver", "gold", "platinum", "diamond"]

/-! ## A store that honours the level query -/

/-- Text of a column of a `student_levels` row, as an equality filter compares it;
`none` for a column the table does not have. -/
def levelColumn (level : Level) (column : String) : Option String :=
  if column = "is_active" then some (toString level.is_active)
  else if column = "level_number" then some (toString level.level_number)
  else if column = "xp_required" then some (toString level.xp_required)
  else if column = "id" then some level.id
  else if column = "badge_name" then some level.badge_name
  else if column = "badge_icon" then some level.badge_icon
  else if column = "badge_tier" then some level.badge_tier
  else none

/-- A row passes the `.eq(column, value)` filters of a query when each named
column holds the given value. -/
def levelSatisfies (eqs : List (String × String)) (level : Level) : Bool :=
  eqs.all (fun filter => levelColumn level filter.1 == some filter.2)

/-- Sort key of a row for `.order(column, ...)` on an integer column. -/
def levelSortKey (column : String) (level : Level) : Int :=
  if column = "level_number" then level.level_number
  else if column = "xp_required" then level.xp_required
  else 0

/-- The rows a store that honours the query returns for a select on the table
`student_levels` with content `table`: the rows passing every equality filter,
in the requested order, cut to the requested limit.  An update returns no rows. -/
def answerLevels (call : StoreCall) (table : List Level) : List Level :=
  match call with
  | StoreCall.select _ eqs order limit _ =>
    let kept := table.filter (levelSatisfies eqs)
    let sorted :=
      match order with
      | some (column, ascending) =>
        kept.insertionSort (fun a b =>
          (if ascending then decide (levelSortKey column a ≤ levelSortKey column b)
            else decide (levelSortKey column b ≤ levelSortKey column a)) = true)
      | none => kept
    match limit with
    | some n => sorted.take n
    | none => sorted
  | StoreCall.update _ _ _ => []

/-- A stored table with an inactive level 1 (threshold 0) next to the active
levels 3 and 2, out of order. -/
def tableWithInactive : List Level :=
  [{ mkLevel 1 0 with is_active := false }, mkLevel 3 2000, mkLevel 2 500]

/-- The state in which `fetchUserStats` ends when the render it was created in
still holds `stats.totalXP = 100`, the profile has meanwhile reached `xp = 600`,
and both queries and the level query (sample catalog) succeed. -/
def staleRefresh : Outcome :=
  fetchUserStats (stateWithXP 100) (some { id := "u1" })
    (some { full_name := none, avatar_url := none, xp := some 600 })
    (okRows []) { data := none, error := none } (okRows sampleCatalog)

/-! ## Helper lemmas -/

theorem processBadges_earned (s : State) (profile : Option Profile) (levels : List Level) :
    (processBadges s profile (okRows levels)).state.earnedBadges
      = earnedOf (userXPOf s.stats profile) levels := rfl

theorem processBadges_upcoming (s : State) (profile : Option Profile) (levels : List Level) :
    (processBadges s profile (okRows levels)).state.upcomingBadges
      = upcomingOf (userXPOf s.stats profile) levels := rfl

theorem mem_earnedOf (xp : Int) (levels : List Level) (l : Level) :
    l ∈ earnedOf xp levels ↔ l ∈ levels ∧ l.xp_required ≤ xp := by
  simp [earnedOf]

theorem mem_upcomingOf (xp : Int) (levels : List Level) (l : Level) :
    l ∈ upcomingOf xp levels ↔ l ∈ levels ∧ xp < l.xp_required := by
  simp [upcomingOf]

theorem upcomingOf_eq_filter_not (xp : Int) (levels : List Level) :
    upcomingOf xp levels
      = levels.filter (fun level => !decide (xp ≥ level.xp_required)) := by
  unfold upcomingOf
  congr 1
  funext level
  by_cases h : xp < level.xp_required
  · simp [h]
  · simp [h, not_lt.mp h]

theorem earnedOf_append_upcomingOf_perm (xp : Int) (levels : List Level) :
    (earnedOf xp levels ++ upcomingOf xp levels).Perm levels := by
  rw [upcomingOf_eq_filter_not]
  exact List.filter_append_perm _ levels

theorem earnedOf_sublist_of_le (levels : List Level) {xp1 xp2 : Int} (h : xp1 ≤ xp2) :
    (earnedOf xp1 levels).Sublist (earnedOf xp2 levels) := by
  unfold earnedOf
  apply List.monotone_filter_right
  intro level hlevel
  have h1 : level.xp_required ≤ xp1 := by simpa using hlevel
  simpa using le_trans h1 h

theorem level_le_getLast_of_ascending {levels : List Level} (hs : AscendingByLevel levels)
    {x cur : Level} (hx : x ∈ levels) (hcur : levels.getLast? = some cur) :
    x.level_number ≤ cur.level_number := by
  obtain ⟨ys, rfl⟩ := List.getLast?_eq_some_iff.mp hcur
  unfold AscendingByLevel at hs
  rw [List.pairwise_append] at hs
  rcases List.mem_append.mp hx with hy | hlast
  · exact hs.2.2 x hy cur (List.mem_singleton_self cur)
  · rw [List.mem_singleton.mp hlast]

theorem userXPOf_of_missing (stats : Stats) (profile : Option Profile)
    (h0 : stats.totalXP = 0) (hp : profileXp profile = none) : userXPOf stats profile = 0 := by
  simp [userXPOf, jsOr, jsOrNum, truthy, h0, hp]

/-! ## Claims -/

/-- C1: for every state (hence every XP value) and every list of level rows
returned by the store, the earned and upcoming lists stored by `processBadges`
partition that list: each returned row lies in exactly one of the two lists, the
two lists hold nothing else, together they are a rearrangement of the returned
list, and their lengths add up to its length. -/
theorem processBadges_partition (s : State) (profile : Option Profile) (levels : List Level) :
    (∀ l, l ∈ levels →
      ((l ∈ (processBadges s profile (okRows levels)).state.earnedBadges
          ∧ l ∉ (processBadges s profile (okRows levels)).state.upcomingBadges)
        ∨ (l ∉ (processBadges s profile (okRows levels)).state.earnedBadges
          ∧ l ∈ (processBadges s profile (okRows levels)).state.upcomingBadges)))
    ∧ ((processBadges s profile (okRows levels)).state.earnedBadges
        ++ (processBadges s profile (okRows levels)).state.upcomingBadges).Perm levels
    ∧ (processBadges s profile (okRows levels)).state.earnedBadges.length
        + (processBadges s profile (okRows levels)).state.upcomingBadges.length
        = levels.length := by
  rw [processBadges_earned, processBadges_upcoming]
  refine ⟨?_, earnedOf_append_upcomingOf_perm _ levels, ?_⟩
  · intro l hl
    simp only [mem_earnedOf, mem_upcomingOf]
    by_cases h : l.xp_required ≤ userXPOf s.stats profile
    · exact Or.inl ⟨⟨hl, h⟩, fun h2 => absurd h (not_le.mpr h2.2)⟩
    · exact Or.inr ⟨fun h2 => h h2.2, ⟨hl, not_le.mp h⟩⟩
  · have := (earnedOf_append_upcomingOf_perm (userXPOf s.stats profile) levels).length_eq
    simpa using this

/-- C2: a returned row is stored in `earnedBadges` iff its `xp_required` is at
most the user XP, and in `upcomingBadges` iff its `xp_required` exceeds it; on the
catalog `[{1,0},{2,500},{3,2000}]` with XP 600 the earned levels are 1 and 2 and
the upcoming level is 3. -/
theorem processBadges_threshold (s : State) (profile : Option Profile) (levels : List Level)
    (l : Level) (hl : l ∈ levels) :
    (l ∈ (processBadges s profile (okRows levels)).state.earnedBadges
        ↔ l.xp_required ≤ userXPOf s.stats profile)
    ∧ (l ∈ (processBadges s profile (okRows levels)).state.upcomingBadges
        ↔ userXPOf s.stats profile < l.xp_required)
    ∧ (processBadges (stateWithXP 600) none (okRows sampleCatalog)).state.earnedBadges
        = [mkLevel 1 0, mkLevel 2 500]
    ∧ (processBadges (stateWithXP 600) none (okRows sampleCatalog)).state.upcomingBadges
        = [mkLevel 3 2000] := by
  refine ⟨?_, ?_, by decide, by decide⟩
  · rw [processBadges_earned, mem_earnedOf]
    exact ⟨fun h => h.2, fun h => ⟨hl, h⟩⟩
  · rw [processBadges_upcoming, mem_upcomingOf]
    exact ⟨fun h => h.2, fun h => ⟨hl, h⟩⟩

/-- Witness of C2 at the boundary: on the sample catalog with XP 500, level 2
(threshold 500) is earned. -/
theorem processBadges_threshold_witness :
    (mkLevel 2 500 ∈ (processBadges (stateWithXP 500) none (okRows sampleCatalog)).state.earnedBadges
        ↔ (mkLevel 2 500).xp_required ≤ userXPOf (stateWithXP 500).stats none)
    ∧ (mkLevel 2 500).xp_required ≤ userXPOf (stateWithXP 500).stats none :=
  ⟨(processBadges_threshold (stateWithXP 500) none sampleCatalog (mkLevel 2 500)
      (by decide)).1, by decide⟩

/-- C3: the render-time flag `isUnlocked` is true exactly when
`totalXP ≥ unlock_xp`, and `handleAvatarSelect` (with a signed-in user) goes on to
issue its update exactly when `totalXP ≥ unlock_xp`, so the two checks agree; an
avatar with `unlock_xp = 500` is locked at XP 499 and unlocked at XP 500. -/
theorem avatar_selectable_iff (s : State) (u : User) (avatar : Avatar) (resp : Response Unit) :
    (isUnlocked s.stats avatar = true ↔ avatar.unlock_xp ≤ s.stats.totalXP)
    ∧ ((handleAvatarSelect s (some u) avatar resp).calls = [avatarUpdateCall u avatar]
        ↔ avatar.unlock_xp ≤ s.stats.totalXP)
    ∧ (isUnlocked s.stats avatar = true
        ↔ (handleAvatarSelect s (some u) avatar resp).calls = [avatarUpdateCall u avatar])
    ∧ isUnlocked (stateWithXP 499).stats (mkAvatar 500) = false
    ∧ (handleAvatarSelect (stateWithXP 499) (some u) (mkAvatar 500) resp).calls = []
    ∧ isUnlocked (stateWithXP 500).stats (mkAvatar 500) = true
    ∧ (handleAvatarSelect (stateWithXP 500) (some u) (mkAvatar 500) resp).calls
        = [avatarUpdateCall u (mkAvatar 500)] := by
  have h1 : isUnlocked s.stats avatar = true ↔ avatar.unlock_xp ≤ s.stats.totalXP := by
    simp [isUnlocked]
  have h2 : ∀ (s : State) (avatar : Avatar),
      (handleAvatarSelect s (some u) avatar resp).calls = [avatarUpdateCall u avatar]
        ↔ avatar.unlock_xp ≤ s.stats.totalXP := by
    intro s avatar
    unfold handleAvatarSelect
    by_cases h : s.stats.totalXP < avatar.unlock_xp
    · simp [h]
    · rw [if_neg h]
      cases resp.error <;> simp [not_lt.mp h]
  refine ⟨h1, h2 s avatar, h1.trans (h2 s avatar).symm, by decide, ?_, by decide, ?_⟩
  · have h : (stateWithXP 499).stats.totalXP < (mkAvatar 500).unlock_xp := by decide
    simp [handleAvatarSelect, h]
  · exact (h2 _ _).mpr (by decide)

/-- C4: selecting a locked avatar does nothing: with `stats.totalXP < unlock_xp`
the handler issues no store call, logs no error and returns the state unchanged
(in particular `selectedAvatar` and `showAvatarSelector`). -/
theorem handleAvatarSelect_locked_noop (s : State) (user : Option User) (avatar : Avatar)
    (resp : Response Unit) (h : s.stats.totalXP < avatar.unlock_xp) :
    handleAvatarSelect s user avatar resp = { state := s, calls := [], errors := [] } := by
  simp [handleAvatarSelect, h]

/-- Witness of C4: XP 499 against an avatar that unlocks at 500. -/
theorem handleAvatarSelect_locked_noop_witness :
    (stateWithXP 499).stats.totalXP < (mkAvatar 500).unlock_xp
    ∧ handleAvatarSelect (stateWithXP 499) (some { id := "u1" }) (mkAvatar 500) okUnit
        = { state := stateWithXP 499, calls := [], errors := [] } :=
  ⟨by decide, handleAvatarSelect_locked_noop (stateWithXP 499) (some { id := "u1" })
      (mkAvatar 500) okUnit (by decide)⟩

/-- C5, as stated, fails: `processBadges` keeps the arrival order, so the rows
`[{2,500},{1,0}]` with XP 600 give an earned list that is not ascending. -/
theorem processBadges_unsorted_counterexample :
    ¬ AscendingByLevel
        (processBadges (stateWithXP 600) none
          (okRows [mkLevel 2 500, mkLevel 1 0])).state.earnedBadges := by
  decide

/-- C5, amended: when the returned rows are ordered ascending by `level_number`
(the order the query asks the store for), the earned and the upcoming list are
each ordered ascending by `level_number`. -/
theorem processBadges_keeps_ascending (s : State) (profile : Option Profile)
    (levels : List Level) (h : AscendingByLevel levels) :
    AscendingByLevel (processBadges s profile (okRows levels)).state.earnedBadges
    ∧ AscendingByLevel (processBadges s profile (okRows levels)).state.upcomingBadges := by
  rw [processBadges_earned, processBadges_upcoming]
  exact ⟨List.Pairwise.filter _ h, List.Pairwise.filter _ h⟩

/-- Witness of C5 (amended) on the sample catalog with XP 600. -/
theorem processBadges_keeps_ascending_witness :
    AscendingByLevel sampleCatalog
    ∧ AscendingByLevel
        (processBadges (stateWithXP 600) none (okRows sampleCatalog)).state.earnedBadges
    ∧ AscendingByLevel
        (processBadges (stateWithXP 600) none (okRows sampleCatalog)).state.upcomingBadges :=
  ⟨by decide, processBadges_keeps_ascending (stateWithXP 600) none sampleCatalog (by decide)⟩

/-- When every returned row is active, every row of `earnedBadges` and of
`upcomingBadges` is active; the one query `processBadges` issues is the select
on `student_levels` filtered on `is_active = true`. -/
theorem processBadges_active_only (s : State) (profile : Option Profile) (levels : List Level)
    (h : ∀ l, l ∈ levels → l.is_active = true) :
    (processBadges s profile (okRows levels)).calls
        = [StoreCall.select "student_levels" [("is_active", "true")]
            (some ("level_number", true)) none false]
    ∧ (∀ l, l ∈ (processBadges s profile (okRows levels)).state.earnedBadges
        → l.is_active = true)
    ∧ (∀ l, l ∈ (processBadges s profile (okRows levels)).state.upcomingBadges
        → l.is_active = true) := by
  refine ⟨rfl, ?_, ?_⟩
  · intro l hl
    rw [processBadges_earned, mem_earnedOf] at hl
    exact h l hl.1
  · intro l hl
    rw [processBadges_upcoming, mem_upcomingOf] at hl
    exact h l hl.1

theorem mem_answerLevels_studentLevelsQuery (table : List Level) (l : Level) :
    l ∈ answerLevels studentLevelsQuery table ↔ l ∈ table ∧ l.is_active = true := by
  unfold answerLevels studentLevelsQuery
  simp only
  rw [(List.perm_insertionSort _ _).mem_iff, List.mem_filter]
  constructor
  · rintro ⟨hmem, hsat⟩
    refine ⟨hmem, ?_⟩
    cases hact : l.is_active with
    | true => rfl
    | false =>
      simp [levelSatisfies, levelColumn, hact] at hsat
      exact absurd hsat (by decide)
  · rintro ⟨hmem, hact⟩
    refine ⟨hmem, ?_⟩
    simp [levelSatisfies, levelColumn, hact]
    decide

/-- C6: inactive levels never reach the threshold comparison.  The rows that
`processBadges` compares are the answer to its own query, which filters on
`is_active = true` before anything is compared: for every content of the table
`student_levels`, every row of `earnedBadges` and of `upcomingBadges` is active,
no inactive row of the table is in either list, and every active row of the
table is in one of them.  On a table with an inactive level 1 of threshold 0 and
XP 600, the earned list is level 2 alone and the upcoming list level 3 alone. -/
theorem processBadges_excludes_inactive (s : State) (profile : Option Profile)
    (table : List Level) :
    (processBadges s profile (okRows (answerLevels studentLevelsQuery table))).calls
        = [studentLevelsQuery]
    ∧ (∀ l, l ∈ (processBadges s profile
          (okRows (answerLevels studentLevelsQuery table))).state.earnedBadges
        → l.is_active = true)
    ∧ (∀ l, l ∈ (processBadges s profile
          (okRows (answerLevels studentLevelsQuery table))).state.upcomingBadges
        → l.is_active = true)
    ∧ (∀ l, l ∈ table → l.is_active = false →
        l ∉ (processBadges s profile
              (okRows (answerLevels studentLevelsQuery table))).state.earnedBadges
        ∧ l ∉ (processBadges s profile
              (okRows (answerLevels studentLevelsQuery table))).state.upcomingBadges)
    ∧ (∀ l, l ∈ table → l.is_active = true →
        l ∈ (processBadges s profile
              (okRows (answerLevels studentLevelsQuery table))).state.earnedBadges
        ∨ l ∈ (processBadges s profile
              (okRows (answerLevels studentLevelsQuery table))).state.upcomingBadges)
    ∧ (processBadges (stateWithXP 600) none
          (okRows (answerLevels studentLevelsQuery tableWithInactive))).state.earnedBadges
        = [mkLevel 2 500]
    ∧ (processBadges (stateWithXP 600) none
          (okRows (answerLevels studentLevelsQuery tableWithInactive))).state.upcomingBadges
        = [mkLevel 3 2000] := by
  have hact : ∀ l, l ∈ answerLevels studentLevelsQuery table → l.is_active = true :=
    fun l hl => ((mem_answerLevels_studentLevelsQuery table l).mp hl).2
  have hall := processBadges_active_only s profile (answerLevels studentLevelsQuery table) hact
  refine ⟨rfl, hall.2.1, hall.2.2, ?_, ?_, by decide, by decide⟩
  · intro l _ hinactive
    constructor
    · intro hmem
      have := hall.2.1 l hmem
      rw [hinactive] at this
      exact absurd this (by decide)
    · intro hmem
      have := hall.2.2 l hmem
      rw [hinactive] at this
      exact absurd this (by decide)
  · intro l hl hactive
    have hmem : l ∈ answerLevels studentLevelsQuery table :=
      (mem_answerLevels_studentLevelsQuery table l).mpr ⟨hl, hactive⟩
    rw [processBadges_earned, processBadges_upcoming, mem_earnedOf, mem_upcomingOf]
    by_cases h : l.xp_required ≤ userXPOf s.stats profile
    · exact Or.inl ⟨hmem, h⟩
    · exact Or.inr ⟨hmem, not_le.mp h⟩

/-- C7: whenever a current level exists (the last entry `cur` of the earned list
stored by `processBadges`), its `xp_required` is at most the user XP, and so is
the `xp_required` of every entry of `earnedBadges`. -/
theorem current_level_xp_le (s : State) (profile : Option Profile) (levels : List Level)
    (cur : Level)
    (hcur : (processBadges s profile (okRows levels)).state.earnedBadges.getLast? = some cur) :
    cur.xp_required ≤ userXPOf s.stats profile
    ∧ ∀ l, l ∈ (processBadges s profile (okRows levels)).state.earnedBadges
        → l.xp_required ≤ userXPOf s.stats profile := by
  have hall : ∀ l, l ∈ (processBadges s profile (okRows levels)).state.earnedBadges
      → l.xp_required ≤ userXPOf s.stats profile := by
    intro l hl
    rw [processBadges_earned, mem_earnedOf] at hl
    exact hl.2
  exact ⟨hall cur (List.mem_of_getLast?_eq_some hcur), hall⟩

/-- Witness of C7: sample catalog, XP 600, current level 2 with threshold 500. -/
theorem current_level_xp_le_witness :
    (processBadges (stateWithXP 600) none (okRows sampleCatalog)).state.earnedBadges.getLast?
        = some (mkLevel 2 500)
    ∧ (mkLevel 2 500).xp_required ≤ userXPOf (stateWithXP 600).stats none :=
  ⟨by decide,
    (current_level_xp_le (stateWithXP 600) none sampleCatalog (mkLevel 2 500) (by decide)).1⟩

/-- C8: for a catalog returned in ascending `level_number` order and two states
whose user XP satisfy `xp1 ≤ xp2`, if a current level `cur1` exists at `xp1` then
the earned list at `xp1` is a sublist of the earned list at `xp2`, a current level
exists at `xp2`, and its `level_number` is at least that of `cur1`. -/
theorem current_level_monotone (s1 s2 : State) (p1 p2 : Option Profile) (levels : List Level)
    (hsorted : AscendingByLevel levels)
    (hxp : userXPOf s1.stats p1 ≤ userXPOf s2.stats p2) (cur1 : Level)
    (h1 : (processBadges s1 p1 (okRows levels)).state.earnedBadges.getLast? = some cur1) :
    ((processBadges s1 p1 (okRows levels)).state.earnedBadges).Sublist
        (processBadges s2 p2 (okRows levels)).state.earnedBadges
    ∧ ∃ cur2, (processBadges s2 p2 (okRows levels)).state.earnedBadges.getLast? = some cur2
        ∧ cur1.level_number ≤ cur2.level_number := by
  rw [processBadges_earned] at h1 ⊢
  rw [processBadges_earned]
  have hsub := earnedOf_sublist_of_le levels hxp
  have hmem : cur1 ∈ earnedOf (userXPOf s2.stats p2) levels :=
    hsub.subset (List.mem_of_getLast?_eq_some h1)
  refine ⟨hsub, ?_⟩
  cases h2 : (earnedOf (userXPOf s2.stats p2) levels).getLast? with
  | none =>
    rw [List.getLast?_eq_none_iff] at h2
    rw [h2] at hmem
    exact absurd hmem (List.not_mem_nil cur1)
  | some cur2 =>
    have hs2 : AscendingByLevel (earnedOf (userXPOf s2.stats p2) levels) :=
      List.Pairwise.filter _ hsorted
    exact ⟨cur2, rfl, level_le_getLast_of_ascending hs2 hmem h2⟩

/-- Witness of C8: sample catalog, XP 600 against XP 2500: level 2 then level 3. -/
theorem current_level_monotone_witness :
    AscendingByLevel sampleCatalog
    ∧ userXPOf (stateWithXP 600).stats none ≤ userXPOf (stateWithXP 2500).stats none
    ∧ (processBadges (stateWithXP 600) none (okRows sampleCatalog)).state.earnedBadges.getLast?
        = some (mkLevel 2 500)
    ∧ ∃ cur2,
        (processBadges (stateWithXP 2500) none (okRows sampleCatalog)).state.earnedBadges.getLast?
          = some cur2
        ∧ (mkLevel 2 500).level_number ≤ cur2.level_number :=
  ⟨by decide, by decide, by decide,
    (current_level_monotone (stateWithXP 600) (stateWithXP 2500) none none sampleCatalog
      (by decide) (by decide) (mkLevel 2 500) (by decide)).2⟩

/-- C9: when the store answers without error with an empty list, or with no
data at all, `processBadges` stores `earnedBadges = []` and `upcomingBadges = []`
for every state, and nothing is thrown or logged. -/
theorem processBadges_empty_catalog (s : State) (profile : Option Profile) :
    (processBadges s profile { data := some [], error := none }).state.earnedBadges = []
    ∧ (processBadges s profile { data := some [], error := none }).state.upcomingBadges = []
    ∧ (processBadges s profile { data := some [], error := none }).errors = []
    ∧ (processBadges s profile { data := none, error := none }).state.earnedBadges = []
    ∧ (processBadges s profile { data := none, error := none }).state.upcomingBadges = []
    ∧ (processBadges s profile { data := none, error := none }).errors = [] :=
  ⟨rfl, rfl, rfl, rfl, rfl, rfl⟩

/-- C10: with `stats.totalXP = 0` and `profile.xp` missing (or no profile), the
user XP read by `processBadges` is 0, the stored partition is the partition for
XP 0 with nothing logged, the `totalXP` computed by `fetchUserStats` is 0, and
`stats.totalXP` is 0 after `fetchUserStats` on every path. -/
theorem missing_xp_is_zero (s : State) (user : Option User) (profile : Option Profile)
    (levels : List Level) (progressResp : Response (List ProgressRow))
    (userResp : Response UserData) (levelsResp : Response (List Level))
    (h0 : s.stats.totalXP = 0) (hp : profileXp profile = none) :
    userXPOf s.stats profile = 0
    ∧ (processBadges s profile (okRows levels)).state.earnedBadges = earnedOf 0 levels
    ∧ (processBadges s profile (okRows levels)).state.upcomingBadges = upcomingOf 0 levels
    ∧ (processBadges s profile (okRows levels)).errors = []
    ∧ jsOrNum (profileXp profile) 0 = 0
    ∧ (fetchUserStats s user profile progressResp userResp levelsResp).state.stats.totalXP
        = 0 := by
  have hx := userXPOf_of_missing s.stats profile h0 hp
  refine ⟨hx, ?_, ?_, rfl, by simp [hp, jsOrNum], ?_⟩
  · rw [processBadges_earned, hx]
  · rw [processBadges_upcoming, hx]
  · unfold fetchUserStats
    cases user with
    | none => exact h0
    | some u =>
      cases hpe : progressResp.error with
      | some e => simpa [hpe] using h0
      | none =>
        cases hue : userResp.error with
        | some e => simpa [hpe, hue] using h0
        | none => simp [hpe, hue, hp, jsOrNum]

/-- Witness of C10: initial state, a profile without `xp`, the sample catalog. -/
theorem missing_xp_is_zero_witness :
    State.initial.stats.totalXP = 0
    ∧ profileXp (some { full_name := none, avatar_url := none, xp := none }) = none
    ∧ userXPOf State.initial.stats (some { full_name := none, avatar_url := none, xp := none })
        = 0 :=
  ⟨by decide, by decide,
    (missing_xp_is_zero State.initial (some { id := "u1" })
      (some { full_name := none, avatar_url := none, xp := none }) sampleCatalog
      (okRows []) { data := none, error := none } (okRows sampleCatalog)
      (by decide) (by decide)).1⟩

/-! ## Helper lemmas for the claims on XP input and progress -/

theorem jsOrNum_some_zero (t : Int) : jsOrNum (some t) 0 = t := by
  by_cases h : t = 0 <;> simp [jsOrNum, h]

theorem userXPOf_eq (stats : Stats) (profile : Option Profile) :
    userXPOf stats profile
      = if stats.totalXP = 0 then jsOrNum (profileXp profile) 0 else stats.totalXP := by
  by_cases h : stats.totalXP = 0
  · simp [userXPOf, jsOr, truthy, h]
  · simp [userXPOf, jsOr, truthy, jsOrNum, h]

theorem jsOrNum_zero_nonneg (a : Option Int) (h : ∀ n, a = some n → 0 ≤ n) :
    0 ≤ jsOrNum a 0 := by
  cases a with
  | none => simp [jsOrNum]
  | some n =>
    rw [jsOrNum_some_zero]
    exact h n rfl

theorem totalXP_le_userXPOf (stats : Stats) (profile : Option Profile)
    (hp : ∀ n, profileXp profile = some n → 0 ≤ n) :
    stats.totalXP ≤ userXPOf stats profile := by
  rw [userXPOf_eq]
  by_cases h : stats.totalXP = 0
  · rw [if_pos h, h]
    exact jsOrNum_zero_nonneg _ hp
  · rw [if_neg h]

theorem clamp_bounds (x lo hi : Int) (h : lo ≤ hi) : lo ≤ clamp x lo hi ∧ clamp x lo hi ≤ hi := by
  unfold clamp
  exact ⟨le_max_left _ _, max_le h (min_le_right _ _)⟩

theorem earnedOf_eq_iff (xp1 xp2 : Int) (levels : List Level) :
    earnedOf xp1 levels = earnedOf xp2 levels
      ↔ ∀ l, l ∈ levels → (l.xp_required ≤ xp1 ↔ l.xp_required ≤ xp2) := by
  constructor
  · intro h l hl
    have h1 := mem_earnedOf xp1 levels l
    have h2 := mem_earnedOf xp2 levels l
    rw [h] at h1
    constructor
    · intro hle
      exact (h2.mp (h1.mpr ⟨hl, hle⟩)).2
    · intro hle
      exact (h1.mp (h2.mpr ⟨hl, hle⟩)).2
  · intro h
    unfold earnedOf
    apply List.filter_congr
    intro l hl
    simpa using h l hl

theorem upcomingOf_eq_iff (xp1 xp2 : Int) (levels : List Level) :
    upcomingOf xp1 levels = upcomingOf xp2 levels
      ↔ ∀ l, l ∈ levels → (xp1 < l.xp_required ↔ xp2 < l.xp_required) := by
  constructor
  · intro h l hl
    have h1 := mem_upcomingOf xp1 levels l
    have h2 := mem_upcomingOf xp2 levels l
    rw [h] at h1
    constructor
    · intro hlt
      exact (h2.mp (h1.mpr ⟨hl, hlt⟩)).2
    · intro hlt
      exact (h1.mp (h2.mpr ⟨hl, hlt⟩)).2
  · intro h
    unfold upcomingOf
    apply List.filter_congr
    intro l hl
    simpa using h l hl

/-! ## Claims on XP input and progress -/

/-- C11, as stated, fails: XP -5 is not clamped.  On the one-row catalog
`[{1,0}]` nothing is earned at XP -5 and the row is upcoming, while at XP 0 the
row is earned. -/
theorem processBadges_negative_xp_counterexample :
    (processBadges (stateWithXP (-5)) none (okRows [mkLevel 1 0])).state.earnedBadges = []
    ∧ (processBadges (stateWithXP (-5)) none (okRows [mkLevel 1 0])).state.upcomingBadges
        = [mkLevel 1 0]
    ∧ (processBadges (stateWithXP 0) none (okRows [mkLevel 1 0])).state.earnedBadges
        = [mkLevel 1 0] := by
  decide

/-- C11, amended: a negative XP value (in `stats.totalXP`, or in `profile.xp`
while `stats.totalXP` is 0) is used as it is.  The user XP of `processBadges` is
then negative, a returned row is earned iff its `xp_required` is at most that
negative value, and the stored partition equals the partition for XP 0 exactly
when no returned row has its `xp_required` above the negative value and at most 0. -/
theorem processBadges_negative_xp (s : State) (profile : Option Profile) (levels : List Level)
    (hneg : s.stats.totalXP < 0
      ∨ (s.stats.totalXP = 0 ∧ ∃ n, profileXp profile = some n ∧ n < 0)) :
    userXPOf s.stats profile < 0
    ∧ (∀ l, l ∈ levels →
        (l ∈ (processBadges s profile (okRows levels)).state.earnedBadges
          ↔ l.xp_required ≤ userXPOf s.stats profile))
    ∧ (((processBadges s profile (okRows levels)).state.earnedBadges = earnedOf 0 levels
          ∧ (processBadges s profile (okRows levels)).state.upcomingBadges
              = upcomingOf 0 levels)
        ↔ ∀ l, l ∈ levels → (l.xp_required ≤ userXPOf s.stats profile ∨ 0 < l.xp_required)) := by
  have hx : userXPOf s.stats profile < 0 := by
    rw [userXPOf_eq]
    rcases hneg with h | ⟨h0, n, hn, hlt⟩
    · rw [if_neg (ne_of_lt h)]
      exact h
    · rw [if_pos h0, hn, jsOrNum_some_zero]
      exact hlt
  refine ⟨hx, ?_, ?_⟩
  · intro l hl
    rw [processBadges_earned, mem_earnedOf]
    exact ⟨fun h => h.2, fun h => ⟨hl, h⟩⟩
  · rw [processBadges_earned, processBadges_upcoming, earnedOf_eq_iff, upcomingOf_eq_iff]
    constructor
    · rintro ⟨he, -⟩ l hl
      by_cases h : l.xp_required ≤ 0
      · exact Or.inl ((he l hl).mpr h)
      · exact Or.inr (not_le.mp h)
    · intro h
      constructor
      · intro l hl
        constructor
        · intro hle
          exact le_trans hle (le_of_lt hx)
        · intro hle
          rcases h l hl with h1 | h1
          · exact h1
          · exact absurd hle (not_le.mpr h1)
      · intro l hl
        constructor
        · intro hlt
          rcases h l hl with h1 | h1
          · exact absurd hlt (not_lt.mpr h1)
          · exact h1
        · intro hlt
          exact lt_trans hx hlt

/-- Witness of C11 (amended): XP -5 on the sample catalog, whose level 1 has
threshold 0. -/
theorem processBadges_negative_xp_witness :
    (stateWithXP (-5)).stats.totalXP < 0
    ∧ userXPOf (stateWithXP (-5)).stats none < 0 :=
  ⟨by decide,
    (processBadges_negative_xp (stateWithXP (-5)) none sampleCatalog (Or.inl (by decide))).1⟩

/-- C12: the stored partition is a function of the user XP and the returned rows
alone: two states with the same user XP get the same earned and upcoming lists
from the same rows, and evaluating again from the state the first evaluation left
gives the same outcome. -/
theorem processBadges_pure (s1 s2 : State) (p1 p2 : Option Profile) (levels : List Level)
    (hxp : userXPOf s1.stats p1 = userXPOf s2.stats p2) :
    (processBadges s1 p1 (okRows levels)).state.earnedBadges
        = (processBadges s2 p2 (okRows levels)).state.earnedBadges
    ∧ (processBadges s1 p1 (okRows levels)).state.upcomingBadges
        = (processBadges s2 p2 (okRows levels)).state.upcomingBadges
    ∧ processBadges (processBadges s1 p1 (okRows levels)).state p1 (okRows levels)
        = processBadges s1 p1 (okRows levels) := by
  refine ⟨?_, ?_, rfl⟩
  · rw [processBadges_earned, processBadges_earned, hxp]
  · rw [processBadges_upcoming, processBadges_upcoming, hxp]

/-- Witness of C12: XP 600 held in `stats.totalXP`, against XP 600 held in
`profile.xp` with other cells differing. -/
theorem processBadges_pure_witness :
    userXPOf (stateWithXP 600).stats none
        = userXPOf { State.initial with showBadgeModal := true, earnedBadges := sampleCatalog }.stats
            (some { full_name := none, avatar_url := none, xp := some 600 })
    ∧ (processBadges (stateWithXP 600) none (okRows sampleCatalog)).state.earnedBadges
        = (processBadges { State.initial with showBadgeModal := true, earnedBadges := sampleCatalog }
            (some { full_name := none, avatar_url := none, xp := some 600 })
            (okRows sampleCatalog)).state.earnedBadges :=
  ⟨by decide,
    (processBadges_pure (stateWithXP 600)
      { State.initial with showBadgeModal := true, earnedBadges := sampleCatalog } none
      (some { full_name := none, avatar_url := none, xp := some 600 }) sampleCatalog
      (by decide)).1⟩

/-- C13: for every XP value, catalog and sentinel threshold, the
`progressPercentage` of an evaluation lies in `[0, 100]`; on the sample catalog it
is 7 at XP 600 and 100 at XP 5000. -/
theorem progressPercentage_bounds (sentinelXp userXP : Int) (catalog : List Level) :
    0 ≤ (evaluate sentinelXp userXP catalog).progressPercentage
    ∧ (evaluate sentinelXp userXP catalog).progressPercentage ≤ 100
    ∧ (evaluate sentinelXp 600 sampleCatalog).progressPercentage = 7
    ∧ (evaluate sentinelXp 5000 sampleCatalog).progressPercentage = 100 := by
  have hb : 0 ≤ (evaluate sentinelXp userXP catalog).progressPercentage
      ∧ (evaluate sentinelXp userXP catalog).progressPercentage ≤ 100 := by
    unfold evaluate
    dsimp only
    split
    · exact ⟨by simp, by simp⟩
    · dsimp only
      split
      · exact ⟨by simp, by simp⟩
      · exact clamp_bounds _ 0 100 (by decide)
  exact ⟨hb.1, hb.2, rfl, rfl⟩

/-- Within one render the text is positive: when `profile.xp` is non-negative
or missing, every badge of the upcoming list that `processBadges` stores from a
state shows, with the `stats` of that same state, an "XP needed" value above 0;
level 3 of the sample catalog shows 1400 at XP 600. -/
theorem xp_needed_positive (s : State) (profile : Option Profile) (levels : List Level)
    (hp : ∀ n, profileXp profile = some n → 0 ≤ n)
    (l : Level) (hl : l ∈ (processBadges s profile (okRows levels)).state.upcomingBadges) :
    0 < xpNeededShown s.stats l
    ∧ (processBadges (stateWithXP 600) none (okRows sampleCatalog)).state.upcomingBadges.head?
        = some (mkLevel 3 2000)
    ∧ xpNeededShown (stateWithXP 600).stats (mkLevel 3 2000) = 1400 := by
  refine ⟨?_, by decide, by decide⟩
  rw [processBadges_upcoming, mem_upcomingOf] at hl
  have hle := totalXP_le_userXPOf s.stats profile hp
  unfold xpNeededShown
  rw [jsOrNum_some_zero]
  have := lt_of_le_of_lt hle hl.2
  omega

/-- C14 fails on the code.  `fetchUserStats` stores the new `stats` and then
calls `processBadges`, which still reads the `stats.totalXP` of the render it was
created in.  From `stats.totalXP = 100` with `profile.xp = 600` and the sample
catalog, the state ends with `stats.totalXP = 600` while the upcoming list was
cut at XP 100, so level 2 (threshold 500) is upcoming and its "XP needed" text is
`500 - 600 = -100`. -/
theorem xp_needed_negative_after_refresh :
    0 ≤ (stateWithXP 100).stats.totalXP
    ∧ staleRefresh.errors = []
    ∧ staleRefresh.state.stats.totalXP = 600
    ∧ staleRefresh.state.upcomingBadges = [mkLevel 2 500, mkLevel 3 2000]
    ∧ staleRefresh.state.upcomingBadges.head? = some (mkLevel 2 500)
    ∧ xpNeededShown staleRefresh.state.stats (mkLevel 2 500) = -100
    ∧ xpNeededShown staleRefresh.state.stats (mkLevel 2 500) < 0 := by
  decide

/-! ## Helper lemmas for the avatar panel, the statistics and the unit form -/

theorem foldl_add_eq_sum (f : ProgressRow → Int) (rows : List ProgressRow) (init : Int) :
    rows.foldl (fun sum p => sum + f p) init = init + (rows.map f).sum := by
  induction rows generalizing init with
  | nil => simp
  | cons p rest ih =>
    simp only [List.foldl_cons, List.map_cons, List.sum_cons]
    rw [ih]
    ring

theorem scoreSum_eq (completed : List ProgressRow) :
    scoreSum completed = (completed.map (fun p => jsOrNum p.score 0)).sum := by
  unfold scoreSum
  rw [foldl_add_eq_sum]
  simp

theorem mathRoundDiv_spec (num den : Int) (h : 0 < den) :
    2 * den * mathRoundDiv num den ≤ 2 * num + den
    ∧ 2 * num + den < 2 * den * (mathRoundDiv num den + 1) := by
  unfold mathRoundDiv
  have h2 : (0 : Int) < 2 * den := by omega
  have h1 := Int.ediv_mul_le (2 * num + den) (ne_of_gt h2)
  have h3 := Int.lt_ediv_add_one_mul_self (2 * num + den) h2
  constructor
  · nlinarith [h1]
  · nlinarith [h3]

theorem completedOf_filter (rows : List ProgressRow) :
    completedOf (some (rows.filter (fun p => p.status == "completed")))
      = completedOf (some rows) := by
  simp [completedOf, List.filter_filter]

theorem dropWhile_exists_not (p : Char → Bool) (cs : List Char) (h : cs.dropWhile p ≠ []) :
    ∃ c, c ∈ cs.dropWhile p ∧ p c = false :=
  ⟨(cs.dropWhile p).head h, List.head_mem h, List.head_dropWhile_not p cs h⟩

theorem jsTrimChars_exists_not (cs : List Char) (h : jsTrimChars cs ≠ []) :
    ∃ c, c ∈ jsTrimChars cs ∧ isJsWhitespace c = false := by
  unfold jsTrimChars at h ⊢
  have h1 : ((cs.dropWhile isJsWhitespace).reverse.dropWhile isJsWhitespace) ≠ [] := by
    intro h0
    apply h
    rw [h0]
    rfl
  obtain ⟨c, hc, hw⟩ := dropWhile_exists_not isJsWhitespace _ h1
  exact ⟨c, List.mem_reverse.mpr hc, hw⟩

theorem handleSubmit_calls (s : ModalState) (levelId : String) (rows : List UnitNumberRow)
    (insertResp : Response UnitRow) :
    (handleSubmit s levelId (okRows rows) insertResp).calls
      = [unitNumberQuery levelId,
          ModalCall.insertUnit (unitRecord s.formData levelId (nextUnitNumberOf rows))] := by
  unfold handleSubmit
  cases h : insertResp.error <;> simp [okRows, submitFailed]

/-! ## Claims on the unit form, the avatar panel and the statistics -/

/-- C15: when the rows answering the unit-number query are those of a course
with existing unit numbers `units` (no row for no units, else the row of the
highest number), `handleSubmit` inserts the unit with `unit_number` equal to
`nextUnitNumber`, which is 1 for a course without units, the highest existing
number plus 1 otherwise, and above (hence different from) every existing number. -/
theorem next_unit_number_fresh (s : ModalState) (levelId : String) (units : List Int)
    (rows : List UnitNumberRow) (insertResp : Response UnitRow)
    (h : IsTopUnitRows units rows) :
    (handleSubmit s levelId (okRows rows) insertResp).calls
        = [unitNumberQuery levelId,
            ModalCall.insertUnit (unitRecord s.formData levelId (nextUnitNumberOf rows))]
    ∧ (unitRecord s.formData levelId (nextUnitNumberOf rows)).unit_number
        = nextUnitNumberOf rows
    ∧ (units = [] → nextUnitNumberOf rows = 1)
    ∧ (∀ top, top ∈ units → (∀ u, u ∈ units → u ≤ top) → nextUnitNumberOf rows = top + 1)
    ∧ (∀ u, u ∈ units → u < nextUnitNumberOf rows ∧ u ≠ nextUnitNumberOf rows) := by
  refine ⟨handleSubmit_calls s levelId rows insertResp, rfl, ?_, ?_, ?_⟩
  · intro hu
    rcases h with ⟨-, hr⟩ | ⟨top, -, hmem, -⟩
    · rw [hr]
      rfl
    · rw [hu] at hmem
      exact absurd hmem (List.not_mem_nil _)
  · intro top htop hmax
    rcases h with ⟨hu, -⟩ | ⟨top2, hr, hmem, hmax2⟩
    · rw [hu] at htop
      exact absurd htop (List.not_mem_nil _)
    · rw [hr]
      have h1 := hmax2 top htop
      have h2 := hmax top2.unit_number hmem
      show top2.unit_number + 1 = top + 1
      omega
  · intro u hu
    rcases h with ⟨hnil, -⟩ | ⟨top2, hr, -, hmax2⟩
    · rw [hnil] at hu
      exact absurd hu (List.not_mem_nil _)
    · rw [hr]
      have h1 := hmax2 u hu
      show u < top2.unit_number + 1 ∧ u ≠ top2.unit_number + 1
      omega

/-- Witness of C15: a course with units 1, 2, 3; the query returns the row of
unit 3 and the new unit gets number 4. -/
theorem next_unit_number_fresh_witness :
    IsTopUnitRows [1, 2, 3] [{ unit_number := 3 }]
    ∧ (∀ u, u ∈ [(1 : Int), 2, 3] →
        u < nextUnitNumberOf [{ unit_number := 3 }] ∧ u ≠ nextUnitNumberOf [{ unit_number := 3 }]) :=
  ⟨Or.inr ⟨{ unit_number := 3 }, rfl, by decide, by decide⟩,
    (next_unit_number_fresh ModalState.initial "course-1" [1, 2, 3] [{ unit_number := 3 }]
      { data := none, error := none }
      (Or.inr ⟨{ unit_number := 3 }, rfl, by decide, by decide⟩)).2.2.2.2⟩

/-- C16: for an avatar list ordered ascending by `unlock_xp`, the avatar found as
"next" is a locked avatar of the list whose `unlock_xp` is least among the locked
ones, the panel shows its name with the positive value `unlock_xp - totalXP`, and
the panel shows the "all unlocked" message iff every avatar of the list has
`unlock_xp ≤ totalXP`. -/
theorem next_avatar_least_locked (s : State) (hsorted : AscendingByUnlock s.availableAvatars) :
    (∀ next, nextAvatarOf s.stats s.availableAvatars = some next →
        next ∈ s.availableAvatars
        ∧ isUnlocked s.stats next = false
        ∧ (∀ a, a ∈ s.availableAvatars → isUnlocked s.stats a = false →
            next.unlock_xp ≤ a.unlock_xp)
        ∧ nextAvatarPanel s
            = NextAvatarPanel.next next.name (next.unlock_xp - s.stats.totalXP)
        ∧ 0 < next.unlock_xp - s.stats.totalXP)
    ∧ (nextAvatarPanel s = NextAvatarPanel.allUnlocked
        ↔ ∀ a, a ∈ s.availableAvatars → a.unlock_xp ≤ s.stats.totalXP) := by
  constructor
  · intro next hnext
    have hp : s.stats.totalXP < next.unlock_xp := by
      simpa using List.find?_some hnext
    obtain ⟨-, pre, post, hsplit, hpre⟩ := List.find?_eq_some.mp hnext
    refine ⟨List.mem_of_find?_eq_some hnext, by simp [isUnlocked, hp], ?_, ?_, by omega⟩
    · intro a ha hlocked
      have hlt : s.stats.totalXP < a.unlock_xp := by simpa [isUnlocked] using hlocked
      rw [hsplit] at ha
      unfold AscendingByUnlock at hsorted
      rw [hsplit, List.pairwise_append] at hsorted
      rcases List.mem_append.mp ha with h1 | h2
      · have := hpre a h1
        simp at this
        omega
      · rcases List.mem_cons.mp h2 with h3 | h4
        · rw [h3]
        · exact (List.pairwise_cons.mp hsorted.2.1).1 a h4
    · unfold nextAvatarPanel
      rw [hnext]
  · unfold nextAvatarPanel
    cases hfind : nextAvatarOf s.stats s.availableAvatars with
    | some next =>
      have hp : s.stats.totalXP < next.unlock_xp := by
        simpa using List.find?_some hfind
      constructor
      · intro hpanel
        cases hpanel
      · intro hall
        have := hall next (List.mem_of_find?_eq_some hfind)
        omega
    | none =>
      constructor
      · intro _ a ha
        have := List.find?_eq_none.mp hfind a ha
        simpa using this
      · intro _
        rfl

/-- Witness of C16: the fallback avatars at XP 600; the next avatar is Scholar,
1400 XP away. -/
theorem next_avatar_least_locked_witness :
    AscendingByUnlock sampleAvatarState.availableAvatars
    ∧ nextAvatarPanel sampleAvatarState = NextAvatarPanel.next "Scholar" 1400 :=
  ⟨by decide,
    ((next_avatar_least_locked sampleAvatarState (by decide)).1
      { id := "4", name := "Scholar", image_url := "🎓", unlock_xp := 2000,
        description := "Academic scholar", tier := "silver" } (by decide)).2.2.2.1⟩

/-- C17: with a signed-in user and both queries answered without error, the
stored `exercisesCompleted` is the number of rows with status `completed`; the
stored `averageScore` is 0 when there is none, and otherwise the integer nearest
to (sum of their scores, a missing score counting 0) / (their number), halves
rounding up; and the outcome is the same as for the completed rows alone, so
rows with another status contribute nothing. -/
theorem fetchUserStats_stats (s : State) (u : User) (profile : Option Profile)
    (rows : List ProgressRow) (userResp : Response UserData) (levelsResp : Response (List Level))
    (hu : userResp.error = none)
    (completed : List ProgressRow)
    (hc : completed = rows.filter (fun p => p.status == "completed"))
    (total : Int) (ht : total = (completed.map (fun p => jsOrNum p.score 0)).sum) :
    (fetchUserStats s (some u) profile (okRows rows) userResp levelsResp).state.stats.exercisesCompleted
        = completed.length
    ∧ (completed = [] →
        (fetchUserStats s (some u) profile (okRows rows) userResp
          levelsResp).state.stats.averageScore = 0)
    ∧ (completed ≠ [] →
        2 * (completed.length : Int)
            * (fetchUserStats s (some u) profile (okRows rows) userResp
                levelsResp).state.stats.averageScore
          ≤ 2 * total + completed.length
        ∧ 2 * total + completed.length
          < 2 * (completed.length : Int)
            * ((fetchUserStats s (some u) profile (okRows rows) userResp
                levelsResp).state.stats.averageScore + 1))
    ∧ fetchUserStats s (some u) profile (okRows completed) userResp levelsResp
        = fetchUserStats s (some u) profile (okRows rows) userResp levelsResp := by
  have hcomp : completedOf (some rows) = completed := by
    rw [hc]
    rfl
  have hstats : (fetchUserStats s (some u) profile (okRows rows) userResp levelsResp).state.stats
      = { totalXP := jsOrNum (profileXp profile) 0
          exercisesCompleted := completed.length
          streakCount := jsOrNum (userResp.data.bind (fun d => d.streak_count)) 0
          totalPracticeTime := jsOrNum (userResp.data.bind (fun d => d.total_practice_time)) 0
          averageScore := averageScoreOf completed
          levelsCompleted := 0
          unitsCompleted := 0
          sessionsCompleted := 0 } := by
    unfold fetchUserStats
    simp [okRows, hu, hcomp]
  refine ⟨by rw [hstats], ?_, ?_, ?_⟩
  · intro hnil
    rw [hstats, hnil]
    rfl
  · intro hne
    rw [hstats]
    have hpos : 0 < completed.length := List.length_pos.mpr hne
    have hposz : (0 : Int) < (completed.length : Int) := by exact_mod_cast hpos
    show 2 * (completed.length : Int) * averageScoreOf completed ≤ _
      ∧ _ < 2 * (completed.length : Int) * (averageScoreOf completed + 1)
    unfold averageScoreOf
    rw [if_pos hpos, scoreSum_eq, ← ht]
    exact mathRoundDiv_spec total completed.length hposz
  · unfold fetchUserStats
    have hff : completedOf (some completed) = completedOf (some rows) := by
      rw [hc]
      exact completedOf_filter rows
    simp [okRows, hu, hff]

/-- Witness of C17: scores 80 and 85 completed, one row in progress with score
10; two exercises are completed and the average 82.5 is stored as 83. -/
theorem fetchUserStats_stats_witness :
    (fetchUserStats State.initial (some { id := "u1" }) none
        (okRows [{ status := "completed", score := some 80 },
                 { status := "in_progress", score := some 10 },
                 { status := "completed", score := some 85 }])
        { data := none, error := none } (okRows [])).state.stats.exercisesCompleted
      = ([{ status := "completed", score := some 80 },
          { status := "completed", score := some 85 }] : List ProgressRow).length
    ∧ (fetchUserStats State.initial (some { id := "u1" }) none
        (okRows [{ status := "completed", score := some 80 },
                 { status := "in_progress", score := some 10 },
                 { status := "completed", score := some 85 }])
        { data := none, error := none } (okRows [])).state.stats.averageScore = 83 :=
  ⟨(fetchUserStats_stats State.initial { id := "u1" } none
      [{ status := "completed", score := some 80 },
       { status := "in_progress", score := some 10 },
       { status := "completed", score := some 85 }]
      { data := none, error := none } (okRows []) rfl
      [{ status := "completed", score := some 80 },
       { status := "completed", score := some 85 }] (by decide) 165 (by decide)).1,
    by decide⟩

/-- C18: for every form state, when the unit-number query returned rows, the
record that `handleSubmit` inserts has the trimmed title, the trimmed
description or `null` when that is empty (a stored description is never empty and
never consists of white space only), `course_id = levelId`,
`unit_number = nextUnitNumber`, `unlock_requirement = 0`, `is_active = true`, and
`color_theme` and `estimated_duration` as in the form. -/
theorem handleSubmit_record (s : ModalState) (levelId : String) (rows : List UnitNumberRow)
    (insertResp : Response UnitRow) :
    ∃ record,
      (handleSubmit s levelId (okRows rows) insertResp).calls
          = [unitNumberQuery levelId, ModalCall.insertUnit record]
      ∧ record.title = jsTrim s.formData.title
      ∧ (jsTrim s.formData.description = "" → record.description = none)
      ∧ (jsTrim s.formData.description ≠ "" →
          record.description = some (jsTrim s.formData.description))
      ∧ (∀ d, record.description = some d →
          d ≠ "" ∧ ∃ c, c ∈ d.data ∧ isJsWhitespace c = false)
      ∧ record.course_id = levelId
      ∧ record.unit_number = nextUnitNumberOf rows
      ∧ record.unlock_requirement = 0
      ∧ record.is_active = true
      ∧ record.color_theme = s.formData.color_theme
      ∧ record.estimated_duration = s.formData.estimated_duration := by
  refine ⟨unitRecord s.formData levelId (nextUnitNumberOf rows),
    handleSubmit_calls s levelId rows insertResp, rfl, ?_, ?_, ?_, rfl, rfl, rfl, rfl, rfl, rfl⟩
  · intro h
    simp [unitRecord, descriptionField, h]
  · intro h
    simp [unitRecord, descriptionField, h]
  · intro d hd
    by_cases h : jsTrim s.formData.description = ""
    · simp [unitRecord, descriptionField, h] at hd
    · have hd2 : jsTrim s.formData.description = d := by
        simpa [unitRecord, descriptionField, h] using hd
      refine ⟨hd2 ▸ h, ?_⟩
      rw [← hd2]
      have hne : jsTrimChars s.formData.description.data ≠ [] := by
        intro h0
        apply h
        unfold jsTrim
        rw [h0]
      exact jsTrimChars_exists_not _ hne

/-- C19: `loading` is false after `handleSubmit` on every path.  If the
unit-number query fails, only that query is issued (no insert), `onCreated` is not
called, and `error` is the message of the failure, or `Failed to create unit`
when there is none.  The same holds for `onCreated` and `error` when the insert
fails.  If both calls succeed, `onCreated` is called once, with the created row,
nothing is logged and `error` is empty.  A query answered with neither rows nor
error is handled as a failure too. -/
theorem handleSubmit_reports (s : ModalState) (levelId : String)
    (countResp : Response (List UnitNumberRow)) (insertResp : Response UnitRow) :
    (handleSubmit s levelId countResp insertResp).state.loading = false
    ∧ (∀ e, countResp.error = some e →
        (handleSubmit s levelId countResp insertResp).calls = [unitNumberQuery levelId]
        ∧ (handleSubmit s levelId countResp insertResp).created = []
        ∧ (∀ m, e.message = some m → m ≠ "" →
            (handleSubmit s levelId countResp insertResp).state.error = m)
        ∧ (e.message = none →
            (handleSubmit s levelId countResp insertResp).state.error = "Failed to create unit"))
    ∧ (∀ rows e, countResp.error = none → countResp.data = some rows →
        insertResp.error = some e →
        (handleSubmit s levelId countResp insertResp).created = []
        ∧ (∀ m, e.message = some m → m ≠ "" →
            (handleSubmit s levelId countResp insertResp).state.error = m)
        ∧ (e.message = none →
            (handleSubmit s levelId countResp insertResp).state.error = "Failed to create unit"))
    ∧ (∀ rows, countResp.error = none → countResp.data = some rows →
        insertResp.error = none →
        (handleSubmit s levelId countResp insertResp).created = [insertResp.data]
        ∧ (handleSubmit s levelId countResp insertResp).errors = []
        ∧ (handleSubmit s levelId countResp insertResp).state.error = "")
    ∧ (countResp.error = none → countResp.data = none →
        (handleSubmit s levelId countResp insertResp).calls = [unitNumberQuery levelId]
        ∧ (handleSubmit s levelId countResp insertResp).created = []
        ∧ (handleSubmit s levelId countResp insertResp).state.error ≠ "") := by
  refine ⟨?_, ?_, ?_, ?_, ?_⟩
  · unfold handleSubmit
    cases countResp.error with
    | some e => rfl
    | none =>
      cases countResp.data with
      | none => rfl
      | some rows =>
        cases insertResp.error with
        | some e => rfl
        | none => rfl
  · intro e he
    unfold handleSubmit
    rw [he]
    refine ⟨rfl, rfl, ?_, ?_⟩
    · intro m hm hne
      simp [submitFailed, jsOrStr, hm, hne]
    · intro hm
      simp [submitFailed, jsOrStr, hm]
  · intro rows e hce hcd hie
    unfold handleSubmit
    rw [hce, hcd, hie]
    refine ⟨rfl, ?_, ?_⟩
    · intro m hm hne
      simp [submitFailed, jsOrStr, hm, hne]
    · intro hm
      simp [submitFailed, jsOrStr, hm]
  · intro rows hce hcd hie
    unfold handleSubmit
    rw [hce, hcd, hie]
    exact ⟨rfl, rfl, rfl⟩
  · intro hce hcd
    unfold handleSubmit
    rw [hce, hcd]
    refine ⟨rfl, rfl, ?_⟩
    show jsOrStr nullRowsError.message "Failed to create unit" ≠ ""
    decide

/-! ## Helper lemmas for the rendering of practice time -/

theorem digitChar_value (d : Nat) (h : d < 10) : (Nat.digitChar d).toNat - 48 = d := by
  interval_cases d <;> rfl

theorem digitChar_isDigit (d : Nat) (h : d < 10) : (Nat.digitChar d).isDigit = true := by
  interval_cases d <;> rfl

theorem toDigitsCore_append (fuel n : Nat) (ds : List Char) :
    Nat.toDigitsCore 10 fuel n ds = Nat.toDigitsCore 10 fuel n [] ++ ds := by
  induction fuel generalizing n ds with
  | zero => simp [Nat.toDigitsCore]
  | succ fuel ih =>
    unfold Nat.toDigitsCore
    by_cases h : n / 10 = 0
    · simp [h]
    · simp only [h, if_false]
      rw [ih (n / 10) (Nat.digitChar (n % 10) :: ds), ih (n / 10) [Nat.digitChar (n % 10)]]
      simp

theorem toDigitsCore_succ (fuel n : Nat) :
    Nat.toDigitsCore 10 (fuel + 1) n []
      = if n / 10 = 0 then [Nat.digitChar (n % 10)]
        else Nat.toDigitsCore 10 fuel (n / 10) [] ++ [Nat.digitChar (n % 10)] := by
  conv => lhs; unfold Nat.toDigitsCore
  by_cases h : n / 10 = 0
  · simp [h]
  · simp only [h, if_false]
    rw [toDigitsCore_append]

theorem digitsValue_snoc (cs : List Char) (c : Char) :
    digitsValue (cs ++ [c]) = 10 * digitsValue cs + (c.toNat - 48) := by
  simp [digitsValue, List.foldl_append]

theorem digitsValue_toDigitsCore (fuel n : Nat) (h : n < fuel) :
    digitsValue (Nat.toDigitsCore 10 fuel n []) = n := by
  induction fuel generalizing n with
  | zero => omega
  | succ fuel ih =>
    rw [toDigitsCore_succ]
    by_cases h0 : n / 10 = 0
    · rw [if_pos h0]
      have hn : n < 10 := by omega
      simp [digitsValue, Nat.mod_eq_of_lt hn, digitChar_value n hn]
    · rw [if_neg h0, digitsValue_snoc, ih (n / 10) (by omega),
        digitChar_value (n % 10) (Nat.mod_lt n (by decide))]
      omega

theorem isDigit_toDigitsCore (fuel n : Nat) (c : Char)
    (hc : c ∈ Nat.toDigitsCore 10 fuel n []) : c.isDigit = true := by
  induction fuel generalizing n with
  | zero => simp [Nat.toDigitsCore] at hc
  | succ fuel ih =>
    rw [toDigitsCore_succ] at hc
    by_cases h0 : n / 10 = 0
    · rw [if_pos h0] at hc
      rw [List.mem_singleton.mp hc]
      exact digitChar_isDigit _ (Nat.mod_lt n (by decide))
    · rw [if_neg h0] at hc
      rcases List.mem_append.mp hc with h1 | h1
      · exact ih (n / 10) h1
      · rw [List.mem_singleton.mp h1]
        exact digitChar_isDigit _ (Nat.mod_lt n (by decide))

theorem toString_nat_data (n : Nat) : (toString n).data = Nat.toDigits 10 n := rfl

theorem toDigits_injective (a b : Nat) (h : Nat.toDigits 10 a = Nat.toDigits 10 b) : a = b := by
  have ha := digitsValue_toDigitsCore (a + 1) a (by omega)
  have hb := digitsValue_toDigitsCore (b + 1) b (by omega)
  unfold Nat.toDigits at h
  rw [h] at ha
  omega

theorem isDigit_toDigits (n : Nat) (c : Char) (hc : c ∈ Nat.toDigits 10 n) :
    c.isDigit = true :=
  isDigit_toDigitsCore (n + 1) n c hc

theorem snoc_inj {α : Type} {l1 l2 : List α} {a b : α} (h : l1 ++ [a] = l2 ++ [b]) :
    l1 = l2 ∧ a = b := by
  have := congrArg List.reverse h
  simp at this
  exact ⟨this.2, this.1⟩

theorem split_at_unique {α : Type} (c : α) :
    ∀ (xs xs2 ys ys2 : List α), c ∉ xs → c ∉ xs2 → xs ++ c :: ys = xs2 ++ c :: ys2 →
      xs = xs2 ∧ ys = ys2
  | [], [], ys, ys2, _, _, h => by
    simp at h
    exact ⟨rfl, h⟩
  | [], x :: xs2, ys, ys2, _, h2, h => by
    simp at h
    exact absurd (h.1 ▸ List.mem_cons_self _ _) h2
  | x :: xs, [], ys, ys2, h1, _, h => by
    simp at h
    exact absurd (h.1 ▸ List.mem_cons_self _ _) h1
  | x :: xs, x2 :: xs2, ys, ys2, h1, h2, h => by
    simp at h
    have := split_at_unique c xs xs2 ys ys2 (fun hm => h1 (List.mem_cons_of_mem _ hm))
      (fun hm => h2 (List.mem_cons_of_mem _ hm)) h.2
    exact ⟨by rw [h.1, this.1], this.2⟩

theorem formatPracticeTime_data (m : Nat) :
    (formatPracticeTime m).data
      = if m < 60 then (Nat.toDigits 10 m ++ [' ', 'p', 'h', 'ú']) ++ ['t']
        else if m % 60 > 0 then
          (Nat.toDigits 10 (m / 60) ++ 'h' :: (' ' :: Nat.toDigits 10 (m % 60))) ++ ['m']
        else (Nat.toDigits 10 (m / 60) ++ [' ', 'g', 'i']) ++ ['ờ'] := by
  unfold formatPracticeTime
  by_cases h : m < 60
  · simp only [h, if_true, String.data_append, toString_nat_data]
    simp
  · by_cases h2 : m % 60 > 0
    · simp only [h, h2, if_true, if_false, String.data_append, toString_nat_data]
      simp
    · simp only [h, h2, if_false, String.data_append, toString_nat_data]
      simp

theorem formatPracticeTime_injective (m m2 : Nat)
    (h : formatPracticeTime m = formatPracticeTime m2) : m = m2 := by
  have hd := congrArg String.data h
  rw [formatPracticeTime_data, formatPracticeTime_data] at hd
  have hh : ∀ n : Nat, 'h' ∉ Nat.toDigits 10 n := by
    intro n hmem
    have := isDigit_toDigits n 'h' hmem
    exact absurd this (by decide)
  by_cases c1 : m < 60 <;> by_cases c2 : m2 < 60
  · rw [if_pos c1, if_pos c2] at hd
    exact toDigits_injective _ _ (List.append_cancel_right (snoc_inj hd).1)
  · rw [if_pos c1, if_neg c2] at hd
    by_cases r2 : m2 % 60 > 0
    · rw [if_pos r2] at hd
      exact absurd (snoc_inj hd).2 (by decide)
    · rw [if_neg r2] at hd
      exact absurd (snoc_inj hd).2 (by decide)
  · rw [if_neg c1, if_pos c2] at hd
    by_cases r1 : m % 60 > 0
    · rw [if_pos r1] at hd
      exact absurd (snoc_inj hd).2 (by decide)
    · rw [if_neg r1] at hd
      exact absurd (snoc_inj hd).2 (by decide)
  · rw [if_neg c1, if_neg c2] at hd
    by_cases r1 : m % 60 > 0 <;> by_cases r2 : m2 % 60 > 0
    · rw [if_pos r1, if_pos r2] at hd
      have hs := split_at_unique 'h' _ _ _ _ (hh _) (hh _) (snoc_inj hd).1
      have e1 := toDigits_injective _ _ hs.1
      have e2 := toDigits_injective _ _ (List.cons.inj hs.2).2
      omega
    · rw [if_pos r1, if_neg r2] at hd
      exact absurd (snoc_inj hd).2 (by decide)
    · rw [if_neg r1, if_pos r2] at hd
      exact absurd (snoc_inj hd).2 (by decide)
    · rw [if_neg r1, if_neg r2] at hd
      have e1 := toDigits_injective _ _ (List.append_cancel_right (snoc_inj hd).1)
      omega

/-! ## Claim on the rendering of practice time -/

/-- C20: for every non-negative whole number of minutes `m`,
`formatPracticeTime m` is `m phút` when `m < 60`; otherwise, with
`h = m / 60` and `r = m % 60` (so `h ≥ 1`, `r < 60` and `60 * h + r = m`), it is
`h giờ` when `r = 0` and `hh rm` when `r > 0`; and two different numbers of
minutes are never rendered alike, so the text determines `m`. -/
theorem formatPracticeTime_spec (m : Nat) :
    (m < 60 → formatPracticeTime m = toString m ++ " phút")
    ∧ (60 ≤ m →
        1 ≤ m / 60 ∧ m % 60 < 60 ∧ 60 * (m / 60) + m % 60 = m
        ∧ (m % 60 = 0 → formatPracticeTime m = toString (m / 60) ++ " giờ")
        ∧ (0 < m % 60 →
            formatPracticeTime m = toString (m / 60) ++ "h " ++ toString (m % 60) ++ "m"))
    ∧ (∀ m2, formatPracticeTime m = formatPracticeTime m2 → m = m2)
    ∧ formatPracticeTime 45 = "45 phút"
    ∧ formatPracticeTime 120 = "2 giờ"
    ∧ formatPracticeTime 125 = "2h 5m" := by
  refine ⟨?_, ?_, fun m2 h => formatPracticeTime_injective m m2 h, by decide, by decide,
    by decide⟩
  · intro h
    unfold formatPracticeTime
    rw [if_pos h]
  · intro h
    have hnot : ¬ m < 60 := by omega
    refine ⟨by omega, Nat.mod_lt m (by decide), by omega, ?_, ?_⟩
    · intro hr
      unfold formatPracticeTime
      have hr2 : ¬ m % 60 > 0 := by omega
      simp only [hnot, hr2, if_false]
    · intro hr
      unfold formatPracticeTime
      have hr2 : m % 60 > 0 := hr
      simp only [hnot, hr2, if_true, if_false]

/-! ## Tier lookup -/

theorem getProperty_of_plain_key {α : Type} (table : List (String × α)) (tier : Option String)
    (hown : table.lookup (propertyKey tier) = none)
    (hproto : propertyKey tier ∉ objectPrototypeKeys) : getProperty table tier = none := by
  unfold getProperty
  rw [hown]
  simp [hproto]

theorem lookup_tier_tables (key : String) (h : key ∉ tableTiers) :
    tierIcons.lookup key = none ∧ tierColors.lookup key = none
      ∧ tierBgColors.lookup key = none := by
  simp only [tableTiers, List.mem_cons, List.mem_singleton, List.not_mem_nil, or_false,
    not_or] at h
  obtain ⟨h1, h2, h3, h4, h5⟩ := h
  have e1 : (key == "bronze") = false := by simpa using h1
  have e2 : (key == "silver") = false := by simpa using h2
  have e3 : (key == "gold") = false := by simpa using h3
  have e4 : (key == "platinum") = false := by simpa using h4
  have e5 : (key == "diamond") = false := by simpa using h5
  simp [tierIcons, tierColors, tierBgColors, List.lookup, e1, e2, e3, e4, e5]

/-- What does hold of the tier functions: a tier outside the five table tiers,
whose key is not a member name of `Object.prototype`, gets the fallbacks. -/
theorem getTier_fallback_of_plain_key (tier : Option String)
    (htable : propertyKey tier ∉ tableTiers)
    (hproto : propertyKey tier ∉ objectPrototypeKeys) :
    getTierIcon tier = Looked.entry Icon.Shield
    ∧ getTierColor tier = Looked.entry "text-gray-500"
    ∧ getTierBgColor tier = Looked.entry "bg-gray-100" := by
  obtain ⟨h1, h2, h3⟩ := lookup_tier_tables (propertyKey tier) htable
  refine ⟨?_, ?_, ?_⟩
  · unfold getTierIcon
    rw [getProperty_of_plain_key tierIcons tier h1 hproto]
  · unfold getTierColor lookupOrString
    rw [getProperty_of_plain_key tierColors tier h2 hproto]
  · unfold getTierBgColor lookupOrString
    rw [getProperty_of_plain_key tierBgColors tier h3 hproto]

/-- C21 fails on the code for the tier `constructor`: the tables are object
literals, so `table['constructor']` is the inherited member of `Object.prototype`,
which is truthy, and all three functions return it in place of their fallback
`Shield`, `text-gray-500`, `bg-gray-100`.  The five table tiers do get their
entries, and `default`, an unknown plain string and a missing tier do get the
fallbacks. -/
theorem getTier_constructor_key :
    getTierIcon (some "constructor") = Looked.inherited "constructor"
    ∧ getTierColor (some "constructor") = Looked.inherited "constructor"
    ∧ getTierBgColor (some "constructor") = Looked.inherited "constructor"
    ∧ getTierIcon (some "constructor") ≠ Looked.entry Icon.Shield
    ∧ getTierColor (some "constructor") ≠ Looked.entry "text-gray-500"
    ∧ getTierBgColor (some "constructor") ≠ Looked.entry "bg-gray-100"
    ∧ tableTiers.map (fun t => getTierIcon (some t))
        = [Looked.entry Icon.Shield, Looked.entry Icon.Award, Looked.entry Icon.Crown,
            Looked.entry Icon.Gem, Looked.entry Icon.Zap]
    ∧ tableTiers.map (fun t => getTierColor (some t))
        = [Looked.entry "text-amber-600", Looked.entry "text-gray-500",
            Looked.entry "text-yellow-500", Looked.entry "text-purple-500",
            Looked.entry "text-cyan-400"]
    ∧ tableTiers.map (fun t => getTierBgColor (some t))
        = [Looked.entry "bg-amber-100", Looked.entry "bg-gray-100",
            Looked.entry "bg-yellow-100", Looked.entry "bg-purple-100",
            Looked.entry "bg-cyan-100"]
    ∧ [some "default", some "mythic", none].map getTierIcon
        = [Looked.entry Icon.Shield, Looked.entry Icon.Shield, Looked.entry Icon.Shield]
    ∧ [some "default", some "mythic", none].map getTierColor
        = [Looked.entry "text-gray-500", Looked.entry "text-gray-500",
            Looked.entry "text-gray-500"]
    ∧ [some "default", some "mythic", none].map getTierBgColor
        = [Looked.entry "bg-gray-100", Looked.entry "bg-gray-100",
            Looked.entry "bg-gray-100"] := by
  decide

end Xpclass
